import Mathlib

/-
Shallow embedding of the validation pipeline of the CustomCode-Analyzer-Generator
repository (src/agents/validation/): the build-output parser (build.py), the
test-output parser (test.py), the action-map validator (action_map.py), the
project setup stage (setup.py) and the orchestrating workflow (workflow.py).

External effects (subprocess invocations, the correlation LLM, the filesystem)
are modelled as oracle inputs supplied in environment records; the control flow,
string processing and data assembly are translated from the Python source.
String whitespace is modelled with Lean's Char.isWhitespace (the Python
functions strip a slightly larger Unicode class) and line splitting handles
the "\n", "\r\n" and "\r" terminators of Python str.splitlines.
-/

namespace CCAG

/-- Python `str.strip()` (on the ASCII whitespace class of
`Char.isWhitespace`). -/
def pyStrip (s : String) : String :=
  String.mk (((s.toList.dropWhile Char.isWhitespace).reverse.dropWhile
    Char.isWhitespace).reverse)

/-- Lower-casing of one ASCII character, for Python `str.lower()`. -/
def lowerChar (c : Char) : Char :=
  if 'A' ≤ c ∧ c ≤ 'Z' then Char.ofNat (c.toNat + 32) else c

/-- Python `str.lower()` (on ASCII letters). -/
def pyLower (s : String) : String := String.mk (s.toList.map lowerChar)

/-- Python `str.startswith(pre)`. -/
def pyStartsWith (s pre : String) : Bool := pre.toList.isPrefixOf s.toList

/-- Splitting on a one-character separator, as Python `str.split(sep)` for
the single-character separators used by the source (`,` `:` `-` `(` `.` ` `). -/
def splitOnCharAux (sep : Char) : List Char → List Char → List String
  | [], acc => [String.mk acc.reverse]
  | c :: rest, acc =>
    if c = sep then String.mk acc.reverse :: splitOnCharAux sep rest []
    else splitOnCharAux sep rest (c :: acc)

/-- Python `s.split(sep)` for a one-character separator. -/
def splitOnChar (sep : Char) (s : String) : List String :=
  splitOnCharAux sep s.toList []

/-- Splits at the first occurrence of a character, as Python
`s.split(sep, 1)`: `none` when the separator is absent. -/
def breakAtChar (sep : Char) : List Char → Option (List Char × List Char)
  | [] => none
  | c :: rest =>
    if c = sep then some ([], rest)
    else
      match breakAtChar sep rest with
      | none => none
      | some (a, b) => some (c :: a, b)

/-- Deletion of every (left-to-right, non-overlapping) occurrence of a
nonempty pattern; the `skip` counter consumes the tail of a matched
occurrence. Models Python `s.replace(pat, "")`. -/
def deleteOccur (pat : List Char) : List Char → Nat → List Char
  | [], _ => []
  | _c :: rest, Nat.succ k => deleteOccur pat rest k
  | c :: rest, 0 =>
    if pat ≠ [] ∧ pat.isPrefixOf (c :: rest) then deleteOccur pat rest (pat.length - 1)
    else c :: deleteOccur pat rest 0

/-- Python `s.replace(pat, "")` for a nonempty pattern. -/
def pyRemoveAll (s pat : String) : String :=
  String.mk (deleteOccur pat.toList s.toList 0)

/-- Python `sep.join(parts)`. -/
def joinWith (sep : String) : List String → String
  | [] => ""
  | [x] => x
  | x :: y :: xs => x ++ sep ++ joinWith sep (y :: xs)

/-- Python `str.splitlines` (restricted to the newline, CRLF and CR
terminators): each terminator ends a line, and a trailing piece without a
terminator is a line only when nonempty. -/
def splitlinesAux : List Char → List Char → List String
  | [], acc => if acc.isEmpty then [] else [String.mk acc.reverse]
  | '\r' :: '\n' :: rest, acc => String.mk acc.reverse :: splitlinesAux rest []
  | '\r' :: rest, acc => String.mk acc.reverse :: splitlinesAux rest []
  | '\n' :: rest, acc => String.mk acc.reverse :: splitlinesAux rest []
  | c :: rest, acc => splitlinesAux rest (c :: acc)

/-- Python `str.splitlines` on a string. -/
def splitlines (s : String) : List String := splitlinesAux s.toList []

/-- Python substring containment `pat in s`. -/
def strContains (s pat : String) : Bool :=
  s.toList.tails.any (fun t => pat.toList.isPrefixOf t)

/-- The body of the de-duplicating accumulation in `_parse_build_output`
(build.py lines 43-50): a line is appended when it carries the marker and has
not been seen, and every appended line is recorded as seen. The warning and
error accumulations of the Python loop never interact, so each is modelled by
one instance of this collector. -/
def collectMarked (pat : String) : List String → List String → List String
  | [], _seen => []
  | line :: rest, seen =>
    if strContains line pat then
      if line ∈ seen then collectMarked pat rest seen
      else line :: collectMarked pat rest (line :: seen)
    else collectMarked pat rest seen

/-- First-occurrence de-duplication relative to an already-seen set. -/
def dedupFirstAux : List String → List String → List String
  | [], _seen => []
  | x :: xs, seen =>
    if x ∈ seen then dedupFirstAux xs seen
    else x :: dedupFirstAux xs (x :: seen)

/-- First-occurrence de-duplication of a list of lines. -/
def dedupFirst (l : List String) : List String := dedupFirstAux l []

/-- Value of a digit list, most significant first. -/
def digitsVal (cs : List Char) : Nat :=
  cs.foldl (fun acc c => acc * 10 + (c.toNat - 48)) 0

/-- Python `int(s)` on a string: surrounding whitespace is stripped, an
optional sign is followed by a nonempty run of digits; anything else raises
(modelled as `none`; Python's digit-group underscores are not modelled). -/
def pyInt (s : String) : Option Int :=
  let t := (pyStrip s).toList
  let signAndDigits : Int × List Char :=
    match t with
    | '+' :: rest => (1, rest)
    | '-' :: rest => (-1, rest)
    | cs => (1, cs)
  let sign := signAndDigits.1
  let digits := signAndDigits.2
  if digits ≠ [] ∧ digits.all Char.isDigit then
    some (sign * (digitsVal digits : Nat))
  else none

/-- One attempt to match the tail of the `Time Elapsed` regular expression
`Time Elapsed\s+(\d+):(\d+):([\d.]+)` at the head of a character list,
returning the three captured groups. -/
def matchTimeElapsed (cs : List Char) : Option (Nat × Nat × List Char) :=
  let lit := "Time Elapsed".toList
  if lit.isPrefixOf cs then
    let afterLit := cs.drop lit.length
    let ws := afterLit.takeWhile Char.isWhitespace
    if ws.isEmpty then none
    else
      let s1 := afterLit.drop ws.length
      let hDigits := s1.takeWhile Char.isDigit
      if hDigits.isEmpty then none
      else
        match s1.drop hDigits.length with
        | ':' :: s2 =>
          let mDigits := s2.takeWhile Char.isDigit
          if mDigits.isEmpty then none
          else
            match s2.drop mDigits.length with
            | ':' :: s3 =>
              let secChars := s3.takeWhile (fun c => c.isDigit || c = '.')
              if secChars.isEmpty then none
              else some (digitsVal hDigits, digitsVal mDigits, secChars)
            | _ => none
        | _ => none
  else none

/-- Milliseconds contributed by the seconds group `[\d.]+`, as the exact
rational value truncated to milliseconds. A group that Python `float` would
reject (more than one dot, or no digit at all) takes the
ValueError path of the source and contributes a zero duration. The source
computes through binary floating point; the model uses exact arithmetic. -/
def secondsGroupMs (cs : List Char) : Option Nat :=
  match splitOnChar '.' (String.mk cs) with
  | [whole] =>
    if whole.isEmpty then none else some (digitsVal whole.toList * 1000)
  | [whole, frac] =>
    if whole.isEmpty ∧ frac.isEmpty then none
    else some (digitsVal whole.toList * 1000 * 10 ^ frac.length / 10 ^ frac.length +
      digitsVal frac.toList * 1000 / 10 ^ frac.length)
  | _ => none

/-- The duration extraction of `_parse_build_output` (build.py lines 54-63):
leftmost match of the `Time Elapsed` pattern, converted to milliseconds;
zero when the pattern is absent or its numeric conversion fails. -/
def parseDurationMs (s : String) : Nat :=
  match s.toList.tails.findSome? matchTimeElapsed with
  | none => 0
  | some (h, m, secChars) =>
    match secondsGroupMs secChars with
    | none => 0
    | some secMs => (h * 3600 + m * 60) * 1000 + secMs

/-- `BuildMetrics` (models.py lines 40-47). -/
structure BuildMetrics where
  warnings : List String := []
  errors : List String := []
  success : Bool := false
  duration_ms : Nat := 0
  raw_output : String := ""
deriving Repr, DecidableEq

/-- The default (unattempted) build metrics constructed at workflow.py
line 32: `BuildMetrics(success=False, duration_ms=0)`. -/
def defaultBuildMetrics : BuildMetrics :=
  { warnings := [], errors := [], success := false, duration_ms := 0, raw_output := "" }

/-- `_parse_build_output` (build.py lines 35-71): de-duplicated
warning/error lines in first-seen order, success as the conjunction of the
`Build succeeded` marker and an empty error list, and the parsed duration. -/
def parse_build_output (build_stdout : String) : BuildMetrics :=
  let lines := splitlines build_stdout
  let warnings := collectMarked ": warning " lines []
  let errors := collectMarked ": error " lines []
  { warnings := warnings
    errors := errors
    success := strContains build_stdout "Build succeeded" && errors.isEmpty
    duration_ms := parseDurationMs build_stdout
    raw_output := build_stdout }

/-- `TestResult` (models.py lines 50-59). Counts are Python ints (the
parser's `int(...)` can produce negative values). -/
structure TestResult where
  passed : Int := 0
  failed : Int := 0
  skipped : Int := 0
  duration_ms : Int := 0
  error_details : Option (List String) := none
  raw_output : String := ""
deriving Repr, DecidableEq

/-- The mutable locals of the `_parse_test_output` loop (test.py lines 68-69). -/
structure TestState where
  passed : Int
  failed : Int
  skipped : Int
  duration_ms : Int
  error_details : List String
deriving Repr, DecidableEq

/-- One summary-line part (test.py lines 79-92). `none` models the uncaught
ValueError of the `int(...)` calls for Failed/Passed/Skipped; the Duration
branch catches its own ValueError and stores zero. -/
def procPart (st : TestState) (part0 : String) : Option TestState :=
  let part := pyStrip part0
  if pyStartsWith part "Failed:" then
    match pyInt ((splitOnChar ':' part).getD 1 "") with
    | some n => some { st with failed := n }
    | none => none
  else if pyStartsWith part "Passed:" then
    match pyInt ((splitOnChar ':' part).getD 1 "") with
    | some n => some { st with passed := n }
    | none => none
  else if pyStartsWith part "Skipped:" then
    match pyInt ((splitOnChar ':' part).getD 1 "") with
    | some n => some { st with skipped := n }
    | none => none
  else if pyStartsWith part "Duration:" then
    let time1 := pyStrip (pyRemoveAll (pyRemoveAll part "Duration:") "ms")
    let timeStr := ((splitOnChar ' ' time1).headD "")
    match pyInt timeStr with
    | some n => some { st with duration_ms := n }
    | none => some { st with duration_ms := 0 }
  else some st

/-- Sequential processing of the comma-separated summary parts; the Bool
records whether an exception was raised (aborting with the updates made so
far kept, as the Python locals are). -/
def procParts : List String → TestState → TestState × Bool
  | [], st => (st, false)
  | p :: ps, st =>
    match procPart st p with
    | some st2 => procParts ps st2
    | none => (st, true)

/-- One line of the `_parse_test_output` loop (test.py lines 72-95). The
`split("-")[1]` subscript is modelled with a default that is never reached:
the guarding condition implies the line contains a hyphen. -/
def procLine (st : TestState) (line : String) : TestState × Bool :=
  let ls := pyStrip line
  let appendFail (s : TestState) : TestState :=
    if strContains ls "[FAIL]" then { s with error_details := s.error_details ++ [ls] } else s
  if strContains ls "Failed!  -" || strContains ls "Passed!  -" then
    match procParts (splitOnChar ',' (pyStrip ((splitOnChar '-' ls).getD 1 ""))) st with
    | (st1, true) => (st1, true)
    | (st1, false) => (appendFail st1, false)
  else (appendFail st, false)

/-- The whole line loop; an exception aborts the loop and is caught by the
enclosing `except Exception` (test.py lines 71, 96-97), keeping the values
assigned so far. -/
def parseTestLoop : List String → TestState → TestState
  | [], st => st
  | l :: ls, st =>
    match procLine st l with
    | (st2, false) => parseTestLoop ls st2
    | (st2, true) => st2

/-- `_parse_test_output` (test.py lines 66-106). -/
def parse_test_output (test_stdout : String) : TestResult :=
  let stFin := parseTestLoop (splitlines test_stdout) ⟨0, 0, 0, 0, []⟩
  { passed := stFin.passed
    failed := stFin.failed
    skipped := stFin.skipped
    duration_ms := stFin.duration_ms
    error_details := if stFin.error_details.isEmpty then none else some stFin.error_details
    raw_output := test_stdout }

/-- `ActionMapInfo` (models.py lines 62-68). -/
structure ActionMapInfo where
  implementation : String
  ground_truth : String
  «matches» : Bool
deriving Repr, DecidableEq

/-- `ActionMapResult` (models.py lines 83-90). -/
structure ActionMapResult where
  should_continue : Bool
  odc_generator_output : String
  action_map_info : Option ActionMapInfo
  param_mapping : Option String
deriving Repr, DecidableEq

/-- Outcome oracle for one `subprocess.run(..., check=True)` call: `ok` is a
normal exit, `err` is a `CalledProcessError`/`TimeoutExpired` carrying the
captured streams and the exception's display text `str(e)`. -/
inductive ProcResult where
  | ok (stdout stderr : String)
  | err (stdout stderr msg : String)
deriving Repr, DecidableEq

/-- Outcome oracle for reading and structurally destructuring the ground-truth
YAML (action_map.py lines 46-62): an IO/parse error, a missing/invalid
`actions`/`params` structure, or the per-action parameter counts in the
declaration order of the YAML mapping. -/
inductive YamlOutcome where
  | ioError (msg : String)
  | badStructure (msg : String)
  | ok (paramCounts : List Nat)
deriving Repr, DecidableEq

/-- Insertion into an ascending list, for `param_counts.sort()`. -/
def insertSorted (n : Nat) : List Nat → List Nat
  | [] => [n]
  | m :: ms => if n ≤ m then n :: m :: ms else m :: insertSorted n ms

/-- Python `list.sort()` on natural numbers (ascending). -/
def sortAsc (l : List Nat) : List Nat := l.foldr insertSorted []

/-- The ground-truth map string of action_map.py line 59:
`f"{num_actions}({', '.join(map(str, param_counts))})"` after sorting. -/
def gtMapString (paramCounts : List Nat) : String :=
  toString paramCounts.length ++ "(" ++
    joinWith ", " ((sortAsc paramCounts).map toString) ++ ")"

/-- Python `s.split("(", 1)` as used by `_parse_impl_map`: `none` when the
separator is absent (the two-name unpacking then raises ValueError). -/
def splitOnce (s : String) (sep : Char) : Option (String × String) :=
  match breakAtChar sep s.toList with
  | none => none
  | some (a, b) => some (String.mk a, String.mk b)

/-- Python `s.split("(")[0]` (workflow.py line 99): the text before the first
parenthesis, or the whole string when there is none. -/
def pySplitParenHead (s : String) : String :=
  match breakAtChar '(' s.toList with
  | none => s
  | some (a, _) => String.mk a

/-- Python `s.rstrip(")")`: removes every trailing `)` character. -/
def rstripParen (s : String) : String :=
  String.mk ((s.toList.reverse.dropWhile (fun c => c = ')')).reverse)

/-- `_parse_impl_map` (action_map.py lines 106-116); the error message is the
ValueError text it raises. -/
def parse_impl_map (impl_map : String) : Except String (Int × List Int) :=
  match splitOnce impl_map '(' with
  | none => .error ("Invalid implementation map format: " ++ impl_map)
  | some (actions_str, params_str0) =>
    match pyInt actions_str with
    | none => .error ("Invalid implementation map format: " ++ impl_map)
    | some num_actions =>
      let params_str := rstripParen params_str0
      if params_str = "" then .ok (num_actions, [])
      else
        match (splitOnChar ',' params_str).mapM (fun p => pyInt (pyStrip p)) with
        | none => .error ("Invalid implementation map format: " ++ impl_map)
        | some counts => .ok (num_actions, counts)

/-- `_get_param_mapping` (action_map.py lines 119-173). `reportProc` is the
`--report` subprocess; `llmReply` is the correlation model's reply content
when it is a string, and `none` when the invocation raises or the content is
not a string — all of which yield `None`. The second component counts the
`invoke` calls actually made. The returned string is the reply stripped,
with no validation of its format. -/
def get_param_mapping (reportProc : ProcResult) (llmReply : Option String) :
    Option String × Nat :=
  match reportProc with
  | .err _ _ _ => (none, 0)
  | .ok _ _ =>
    match llmReply with
    | none => (none, 1)
    | some r => (some (pyStrip r), 1)

/-- Oracle inputs of one `validate_action_map` call. -/
structure ActionMapEnv where
  mapProc : ProcResult
  yamlOutcome : YamlOutcome
  reportProc : ProcResult
  llmReply : Option String
deriving Repr, DecidableEq

/-- `validate_action_map` (action_map.py lines 16-103), paired with the
number of correlation-model requests made. The `param_counts[0]` subscript
on an empty list raises IndexError, caught by the outer handler with
Python's standard message. -/
def validate_action_map (yamlPresent : Bool) (env : ActionMapEnv) :
    ActionMapResult × Nat :=
  if !yamlPresent then (⟨true, "", none, none⟩, 0)
  else
    match env.mapProc with
    | .err _ _ msg => (⟨false, msg, none, none⟩, 0)
    | .ok stdout _ =>
      let impl_map := pyStrip stdout
      if impl_map = "" then (⟨false, "Empty implementation map", none, none⟩, 0)
      else
        match env.yamlOutcome with
        | .ioError m => (⟨false, "YAML error: " ++ m, none, none⟩, 0)
        | .badStructure m => (⟨false, "Invalid YAML structure: " ++ m, none, none⟩, 0)
        | .ok counts =>
          let gt_map := gtMapString counts
          let info : ActionMapInfo := ⟨impl_map, gt_map, impl_map == gt_map⟩
          if !info.«matches» then (⟨false, "", some info, none⟩, 0)
          else
            match parse_impl_map impl_map with
            | .error msg => (⟨false, msg, none, none⟩, 0)
            | .ok (num_actions, param_counts) =>
              if num_actions > 1 then (⟨false, "", some info, none⟩, 0)
              else
                match param_counts with
                | [] => (⟨false, "list index out of range", none, none⟩, 0)
                | param_count :: _ =>
                  if param_count = 1 then (⟨true, "", some info, none⟩, 0)
                  else
                    match get_param_mapping env.reportProc env.llmReply with
                    | (none, calls) =>
                      (⟨false, "Failed to generate parameter mapping", some info, none⟩, calls)
                    | (some mapping, calls) =>
                      (⟨true, "", some info, some mapping⟩, calls)

/-- The typed exceptions crossing stage boundaries: `ProjectSetupError` and
`PackageInstallationError` (custom_exceptions.py), plus generic exceptions
(`procError` for subprocess exceptions, which carry a `stderr` attribute and a
display text), `ValueError`, and the `UnboundLocalError` of reading an
unassigned local. -/
inductive PyExc where
  | projectSetup (message output : String)
  | packageInstall (package errorOutput : String)
  | valueError (msg : String)
  | procError (stderr msg : String)
  | unboundLocal (msg : String)
deriving Repr, DecidableEq

/-- Python `str(e)` for the modelled exceptions. `ProjectSetupError` passes
only its message to `Exception.__init__`; `PackageInstallationError` formats
package and error output (custom_exceptions.py line 15). -/
def pyStr : PyExc → String
  | .projectSetup m _ => m
  | .packageInstall p out => "Failed to install package " ++ p ++ ": " ++ out
  | .valueError m => m
  | .procError _ msg => msg
  | .unboundLocal m => m

/-- Python `getattr(e, "stderr", str(e))`: subprocess exceptions expose their
captured stderr; every other modelled exception falls back to `str(e)`. -/
def getattrStderr : PyExc → String
  | .procError stderr _ => stderr
  | e => pyStr e

/-- `_install_package` (setup.py lines 330-347): success, tolerated failure
(`allow_failure=True`), or a raised `PackageInstallationError` carrying the
package name and the command's stderr. -/
def install_package (package : String) (proc : ProcResult) (allow_failure : Bool) :
    Except PyExc Bool :=
  match proc with
  | .ok _ _ => .ok true
  | .err _ stderr _ =>
    if allow_failure then .ok false
    else .error (.packageInstall package stderr)

/-- The first mandatory package whose install subprocess fails, with its
stderr, for loops of `_install_package(..., allow_failure=False)` calls. -/
def firstPkgFailure : List (String × ProcResult) → Option (String × String)
  | [] => none
  | (p, .err _ stderr _) :: _ => some (p, stderr)
  | (_, .ok _ _) :: rest => firstPkgFailure rest

/-- Scaffold attempt counts and the `time.sleep` backoffs (seconds) taken. -/
structure ScaffoldTrace where
  attempts : Nat
  sleeps : List Nat
deriving Repr, DecidableEq

/-- Oracle inputs of `_create_implementation_project`: the two possible
`dotnet new classlib` attempts, the implementation-file write (some msg
models a raised exception), and the two mandatory package installs. -/
structure ImplEnv where
  scaffold1 : ProcResult
  scaffold2 : ProcResult
  writeError : Option String
  sdkPkg : ProcResult
  analyzerPkg : ProcResult
deriving Repr, DecidableEq

/-- `_create_implementation_project` (setup.py lines 69-123): the scaffold
command is retried once after a 2-second sleep; a second failure raises
`ProjectSetupError`; then the code write and the two mandatory installs,
whose `PackageInstallationError` is re-raised as `ProjectSetupError`. -/
def create_implementation_project (env : ImplEnv) :
    Except PyExc Unit × ScaffoldTrace :=
  let afterScaffold : Except PyExc Unit × ScaffoldTrace :=
    match env.scaffold1 with
    | .ok _ _ => (.ok (), ⟨1, []⟩)
    | .err _ _ _ =>
      match env.scaffold2 with
      | .ok _ _ => (.ok (), ⟨2, [2]⟩)
      | .err _ stderr2 _ =>
        (.error (.projectSetup "Failed to create implementation project" stderr2), ⟨2, [2]⟩)
  match afterScaffold with
  | (.error e, tr) => (.error e, tr)
  | (.ok _, tr) =>
    match env.writeError with
    | some msg =>
      (.error (.projectSetup ("Failed to write implementation code: " ++ msg) ""), tr)
    | none =>
      match firstPkgFailure
          [("OutSystems.ExternalLibraries.SDK", env.sdkPkg),
           ("CustomCode.Analyzer", env.analyzerPkg)] with
      | some (p, stderr) =>
        (.error (.projectSetup ("Failed to install required package: " ++ p) stderr), tr)
      | none => (.ok (), tr)

/-- `_install_optional_packages` filtering (setup.py lines 126-138): the
packages for which a `dotnet add package` command is issued. The guard skips
an empty or (case-insensitively) "none" list; otherwise entries are split on
commas, stripped, and dropped when empty, "none" or "moq". -/
def optionalPackagesToInstall (nuget_packages : String) : List String :=
  if nuget_packages != "" && pyLower nuget_packages != "none" then
    ((splitOnChar ',' nuget_packages).map pyStrip).filter
      (fun pkg => pkg != "" && pyLower pkg != "none" && pyLower pkg != "moq")
  else []

/-- Oracle inputs of `_create_llm_test_project`: the `dotnet new xunit`
scaffold, the four mandatory package installs, the project-reference command
and the test-file write. -/
structure LlmTestEnv where
  scaffold : ProcResult
  xunitPkg : ProcResult
  runnerPkg : ProcResult
  testSdkPkg : ProcResult
  moqPkg : ProcResult
  addRef : ProcResult
  writeError : Option String
deriving Repr, DecidableEq

/-- `_create_llm_test_project` (setup.py lines 146-188): every failure inside
the single try block — including a `PackageInstallationError`, whose
`str(e)` becomes the output because it has no `stderr` attribute — is
wrapped as `ProjectSetupError("Failed to setup LLM test project", ...)`.
There is no retry of the scaffold command. -/
def create_llm_test_project (env : LlmTestEnv) : Except PyExc Unit × ScaffoldTrace :=
  match env.scaffold with
  | .err _ stderr _ =>
    (.error (.projectSetup "Failed to setup LLM test project" stderr), ⟨1, []⟩)
  | .ok _ _ =>
    match firstPkgFailure
        [("xunit", env.xunitPkg), ("xunit.runner.visualstudio", env.runnerPkg),
         ("Microsoft.NET.Test.Sdk", env.testSdkPkg), ("Moq", env.moqPkg)] with
    | some (p, stderr) =>
      (.error (.projectSetup "Failed to setup LLM test project"
        (pyStr (.packageInstall p stderr))), ⟨1, []⟩)
    | none =>
      match env.addRef with
      | .err _ stderr _ =>
        (.error (.projectSetup "Failed to setup LLM test project" stderr), ⟨1, []⟩)
      | .ok _ _ =>
        match env.writeError with
        | some msg => (.error (.projectSetup "Failed to setup LLM test project" msg), ⟨1, []⟩)
        | none => (.ok (), ⟨1, []⟩)

/-- Oracle inputs of `_create_ground_truth_tests`: the xunit scaffold, three
mandatory package installs, the reference command, the action-map oracles
and the test-generation subprocess. -/
structure GtEnv where
  scaffold : ProcResult
  xunitPkg : ProcResult
  runnerPkg : ProcResult
  testSdkPkg : ProcResult
  addRef : ProcResult
  amEnv : ActionMapEnv
  genProc : ProcResult
deriving Repr, DecidableEq

/-- Trace of the ground-truth stage. -/
structure GtTrace where
  scaffoldAttempts : Nat
  sleeps : List Nat
  llmCalls : Nat
deriving Repr, DecidableEq

/-- Python's message for reading the local `result` before assignment. -/
def unboundResultMsg : String :=
  "cannot access local variable 'result' where it is not associated with a value"

/-- `_create_ground_truth_tests` (setup.py lines 191-285). After a successful
scaffold, when `search_term_llm` is absent the source skips the assignment of
`result` and then reads `result.should_continue` (line 252): an
`UnboundLocalError`. Otherwise the action map is validated; a negative
`should_continue` returns early, else the generator subprocess runs and its
streams (also on failure) become the diagnostic output. No scaffold retry. -/
def create_ground_truth_tests (llmPresent : Bool) (env : GtEnv) :
    Except PyExc (String × Option ActionMapInfo) × GtTrace :=
  match env.scaffold with
  | .err _ stderr _ =>
    (.error (.projectSetup "Failed to setup ground truth tests" stderr), ⟨1, [], 0⟩)
  | .ok _ _ =>
    match firstPkgFailure
        [("xunit", env.xunitPkg), ("xunit.runner.visualstudio", env.runnerPkg),
         ("Microsoft.NET.Test.Sdk", env.testSdkPkg)] with
    | some (p, stderr) =>
      (.error (.projectSetup "Failed to setup ground truth tests"
        (pyStr (.packageInstall p stderr))), ⟨1, [], 0⟩)
    | none =>
      match env.addRef with
      | .err _ stderr _ =>
        (.error (.projectSetup "Failed to setup ground truth tests" stderr), ⟨1, [], 0⟩)
      | .ok _ _ =>
        if !llmPresent then
          (.error (.unboundLocal unboundResultMsg), ⟨1, [], 0⟩)
        else
          let amr := validate_action_map true env.amEnv
          let result := amr.1
          let odc := result.odc_generator_output
          let info := result.action_map_info
          if !result.should_continue then (.ok (odc, info), ⟨1, [], amr.2⟩)
          else
            match env.genProc with
            | .ok stdout stderr => (.ok (stdout ++ "\n" ++ stderr, info), ⟨1, [], amr.2⟩)
            | .err stdout stderr _ => (.ok (stdout ++ "\n" ++ stderr, info), ⟨1, [], amr.2⟩)

/-- Oracle inputs of `create_and_setup_projects`. -/
structure SetupEnv where
  implEnv : ImplEnv
  nuget : String
  llmTestEnv : LlmTestEnv
  gtEnv : GtEnv
  slnProc : ProcResult
deriving Repr, DecidableEq

/-- Trace of the setup stage; sub-stages not reached report zero attempts. -/
structure SetupTrace where
  implTrace : ScaffoldTrace
  optionalInstalls : List String
  llmTestTrace : ScaffoldTrace
  gtTrace : GtTrace
deriving Repr, DecidableEq

/-- `create_and_setup_projects` (setup.py lines 21-66): implementation
project, optional packages, LLM test project, ground-truth stage when a YAML
path is given, then the solution file (whose creation failure raises
`ProjectSetupError("Failed to create solution", ...)`; the per-project add
failures are only logged). -/
def create_and_setup_projects (yamlGiven llmPresent : Bool) (env : SetupEnv) :
    Except PyExc (String × Option ActionMapInfo) × SetupTrace :=
  match create_implementation_project env.implEnv with
  | (.error e, itr) => (.error e, ⟨itr, [], ⟨0, []⟩, ⟨0, [], 0⟩⟩)
  | (.ok _, itr) =>
    let opts := optionalPackagesToInstall env.nuget
    match create_llm_test_project env.llmTestEnv with
    | (.error e, ltr) => (.error e, ⟨itr, opts, ltr, ⟨0, [], 0⟩⟩)
    | (.ok _, ltr) =>
      let gtStep :=
        if yamlGiven then create_ground_truth_tests llmPresent env.gtEnv
        else (.ok ("", none), ⟨0, [], 0⟩)
      match gtStep with
      | (.error e, gtr) => (.error e, ⟨itr, opts, ltr, gtr⟩)
      | (.ok (odc, info), gtr) =>
        match env.slnProc with
        | .err _ stderr _ =>
          (.error (.projectSetup "Failed to create solution" stderr), ⟨itr, opts, ltr, gtr⟩)
        | .ok _ _ => (.ok (odc, info), ⟨itr, opts, ltr, gtr⟩)

/-- Outcome oracle for a `subprocess.run` call whose surrounding code catches
a raised exception itself (build, tests): either the call raised, or it ran
and produced the two streams (the return code is only logged). -/
inductive CmdOutcome where
  | raised (msg : String)
  | ran (stdout stderr : String)
deriving Repr, DecidableEq

/-- `build_solution` (build.py lines 11-31): a raised exception becomes an
all-default metrics value carrying the message as the single error; otherwise
stdout and stderr are joined by a newline and parsed. -/
def build_solution (o : CmdOutcome) : BuildMetrics × String :=
  match o with
  | .raised msg =>
    ({ warnings := [], errors := ["Build encountered an unexpected error: " ++ msg],
       success := false, duration_ms := 0, raw_output := "" }, "")
  | .ran stdout stderr =>
    (parse_build_output (stdout ++ "\n" ++ stderr), stdout ++ "\n" ++ stderr)

/-- `_run_tests` (test.py lines 39-62): a raised exception yields a
`TestResult` with one failure and the message as detail; otherwise the joined
streams are parsed. -/
def run_tests (o : CmdOutcome) : TestResult :=
  match o with
  | .raised msg =>
    { failed := 1, error_details := some ["Test execution failed: " ++ msg], raw_output := "" }
  | .ran stdout stderr => parse_test_output (stdout ++ "\n" ++ stderr)

/-- `run_all_tests` (test.py lines 11-36): LLM tests always run; ground-truth
tests only when a YAML path was given and the GroundTruthTests directory
exists. -/
def run_all_tests (yamlGiven gtDirExists : Bool) (llmOutcome gtOutcome : CmdOutcome) :
    TestResult × Option TestResult :=
  (run_tests llmOutcome,
   if yamlGiven && gtDirExists then some (run_tests gtOutcome) else none)

/-- `extract_class_name` (utils.py lines 30-56): a failing subprocess
propagates as a generic exception with a `stderr` attribute; empty stripped
output raises ValueError with the fixed message; otherwise the stripped
stdout is the class name. -/
def extract_class_name (proc : ProcResult) : Except PyExc String :=
  match proc with
  | .err _ stderr msg => .error (.procError stderr msg)
  | .ok stdout _ =>
    if pyStrip stdout = "" then
      .error (.valueError "CCAGTestGenerator did not return a class name")
    else .ok (pyStrip stdout)

/-- Abstract location of a retained working tree: the ephemeral temporary
directory, or the caller's target directory. -/
inductive Loc where
  | ephemeral
  | target
deriving Repr, DecidableEq

/-- `ValidationMetrics` (models.py lines 71-80). -/
structure ValidationMetrics where
  build_metrics : BuildMetrics
  llm_test_results : Option TestResult := none
  ground_truth_test_results : Option TestResult := none
  odc_generator_output : String := ""
  solution_dir : Option Loc := none
  action_map_info : Option ActionMapInfo := none
deriving Repr, DecidableEq

/-- Shape of the retention copy call (workflow.py lines 141-147): the name
patterns excluded from the copy and whether a pre-existing target directory
was removed first. -/
structure CopySpec where
  ignore : List String
  removedExisting : Bool
deriving Repr, DecidableEq

/-- Trace of one workflow run. -/
structure RunTrace where
  setupTrace : SetupTrace
  buildRan : Bool
  llmTestsRan : Bool
  gtTestsRan : Bool
  copySpec : Option CopySpec
deriving Repr, DecidableEq

/-- Oracle inputs of one `validate_generated_code` run: the class-name
subprocess, the setup-stage oracles, the presence of the optional YAML path,
correlation model, target directory and retain flag, the build and test
subprocess outcomes, whether the GroundTruthTests directory exists at test
time, whether a directory already exists at the copy target, and whether the
retention copy succeeds. -/
structure RunEnv where
  classProc : ProcResult
  setupEnv : SetupEnv
  yamlGiven : Bool
  llmPresent : Bool
  targetGiven : Bool
  retainOnFailure : Bool
  buildOutcome : CmdOutcome
  llmTestOutcome : CmdOutcome
  gtTestOutcome : CmdOutcome
  gtDirExists : Bool
  targetExists : Bool
  copyOk : Bool
deriving Repr, DecidableEq

/-- The terminal report of the pre-build exit paths: default build metrics,
no test results, a diagnostic string, and the action-map info of the
skip-build path (workflow.py lines 46-51, 55-60, 71-76, 79-84, 88-93,
102-108). -/
def earlyReport (odc : String) (info : Option ActionMapInfo) : ValidationMetrics :=
  { build_metrics := defaultBuildMetrics
    llm_test_results := none
    ground_truth_test_results := none
    odc_generator_output := odc
    solution_dir := none
    action_map_info := info }

/-- An empty run trace with the given setup trace. -/
def preBuildTrace (st : SetupTrace) : RunTrace :=
  ⟨st, false, false, false, none⟩

/-- The setup trace of a run that never reached the setup stage. -/
def zeroSetupTrace : SetupTrace := ⟨⟨0, []⟩, [], ⟨0, []⟩, ⟨0, [], 0⟩⟩

/-- The skip-build decision of workflow.py lines 96-100: with a YAML path,
build is skipped when the action-map info is absent, does not match, or its
implementation summary's leading integer exceeds 1; a leading text that
`int()` rejects raises ValueError. -/
def skipDecision (yamlGiven : Bool) (info : Option ActionMapInfo) :
    Except PyExc Bool :=
  if yamlGiven then
    match info with
    | none => .ok true
    | some i =>
      if !i.«matches» then .ok true
      else
        match pyInt (pySplitParenHead i.implementation) with
        | none =>
          .error (.valueError ("invalid literal for int() with base 10: " ++
            pySplitParenHead i.implementation))
        | some n => .ok (decide (n > 1))
  else .ok false

/-- The build, test and retention stages of `validate_generated_code`
(workflow.py lines 110-152), entered when the skip decision is negative:
`logs`, `info` and `st` carry the setup stage's diagnostic text, action-map
info and trace. -/
def buildPhase (env : RunEnv) (logs : String) (info : Option ActionMapInfo)
    (st : SetupTrace) : Except PyExc ValidationMetrics × RunTrace :=
  let bm := (build_solution env.buildOutcome).1
  let afterBuild : ValidationMetrics × Bool :=
    if !bm.success then
      ({ build_metrics := bm
         llm_test_results := none
         ground_truth_test_results := none
         odc_generator_output := logs
         solution_dir := if env.retainOnFailure then some .ephemeral else none
         action_map_info := none }, false)
    else
      let tests := run_all_tests env.yamlGiven env.gtDirExists
        env.llmTestOutcome env.gtTestOutcome
      ({ build_metrics := bm
         llm_test_results := some tests.1
         ground_truth_test_results := tests.2
         odc_generator_output := logs
         solution_dir := some .ephemeral
         action_map_info := info }, true)
  let result := afterBuild.1
  let testsRan := afterBuild.2
  let retained : ValidationMetrics × Option CopySpec :=
    if env.targetGiven && (bm.success || env.retainOnFailure) then
      if env.copyOk then
        ({ result with solution_dir := some .target },
         some ⟨["bin", "obj"], env.targetExists⟩)
      else (result, some ⟨["bin", "obj"], env.targetExists⟩)
    else (result, none)
  (.ok retained.1,
   ⟨st, true, testsRan, testsRan && (env.yamlGiven && env.gtDirExists),
    retained.2⟩)

/-- `validate_generated_code` (workflow.py lines 20-152): class-name
extraction, setup, the skip-build decision, then the build phase.
The `int(action_map_info.implementation.split("(")[0])` of line 99 sits
outside every try block: its ValueError propagates to the caller. -/
def validate_generated_code (env : RunEnv) :
    Except PyExc ValidationMetrics × RunTrace :=
  match extract_class_name env.classProc with
  | .error (.valueError m) =>
    (.ok (earlyReport m none), preBuildTrace zeroSetupTrace)
  | .error e =>
    (.ok (earlyReport (getattrStderr e) none), preBuildTrace zeroSetupTrace)
  | .ok _class_name =>
    match create_and_setup_projects env.yamlGiven env.llmPresent env.setupEnv with
    | (.error (.projectSetup _ out), st) =>
      (.ok (earlyReport out none), preBuildTrace st)
    | (.error (.packageInstall _ out), st) =>
      (.ok (earlyReport out none), preBuildTrace st)
    | (.error e, st) =>
      (.ok (earlyReport (getattrStderr e) none), preBuildTrace st)
    | (.ok (logs, info), st) =>
      match skipDecision env.yamlGiven info with
      | .error e => (.error e, preBuildTrace st)
      | .ok true => (.ok (earlyReport logs info), preBuildTrace st)
      | .ok false => buildPhase env logs info st

/-- Whether a subprocess oracle reports a normal exit. -/
def ProcResult.isOk : ProcResult → Bool
  | .ok _ _ => true
  | .err _ _ _ => false

/-- Whether every scaffolding subprocess of the ground-truth stage (the
xunit scaffold, the three package installs and the reference command)
exits normally. -/
def gtScaffoldOk (ge : GtEnv) : Bool :=
  ge.scaffold.isOk && ge.xunitPkg.isOk && ge.runnerPkg.isOk &&
    ge.testSdkPkg.isOk && ge.addRef.isOk

/-- An identifier character of a method or parameter name. -/
def identChar (c : Char) : Bool := c.isAlphanum || c = '_'

/-- Consumes a nonempty identifier from a character list. -/
def parseIdent (cs : List Char) : Option (List Char) :=
  let n := cs.takeWhile identChar
  if n.isEmpty then none else some (cs.drop n.length)

/-- Consumes one expected character. -/
def expectChar (c : Char) : List Char → Option (List Char)
  | x :: rest => if x = c then some rest else none
  | [] => none

/-- Modelled from the spec: one entry of the correlation-reply grammar,
`(Method:yamlParam=Method:csParam)`. The source never checks this grammar;
it is defined here only to state the spec's expectation. -/
def mappingEntryOk (s : String) : Bool :=
  (do
    let r1 ← expectChar '(' s.toList
    let r2 ← parseIdent r1
    let r3 ← expectChar ':' r2
    let r4 ← parseIdent r3
    let r5 ← expectChar '=' r4
    let r6 ← parseIdent r5
    let r7 ← expectChar ':' r6
    let r8 ← parseIdent r7
    let r9 ← expectChar ')' r8
    if r9.isEmpty then some () else none).isSome

/-- Modelled from the spec: a full correlation reply of the exact form
`(Method:yamlParam1=Method:csParam1),(Method:yamlParam2=Method:csParam2),...`
(a nonempty comma-separated list of grammar entries). -/
def matchesMappingGrammar (s : String) : Bool :=
  (splitOnChar ',' s).all mappingEntryOk

/-- A normally exiting subprocess with empty streams. -/
def okProc : ProcResult := .ok "" ""

/-- Implementation-project oracles with every step succeeding. -/
def implEnvOk : ImplEnv := ⟨okProc, okProc, none, okProc, okProc⟩

/-- LLM-test-project oracles with every step succeeding. -/
def llmTestEnvOk : LlmTestEnv :=
  ⟨okProc, okProc, okProc, okProc, okProc, okProc, none⟩

/-- Ground-truth-stage oracles around a given action-map environment, with
every scaffolding step succeeding and a generator emitting "G". -/
def gtEnvWith (ae : ActionMapEnv) : GtEnv :=
  ⟨okProc, okProc, okProc, okProc, okProc, ae, .ok "G" ""⟩

/-- Setup oracles around a given action-map environment. -/
def setupEnvWith (ae : ActionMapEnv) : SetupEnv :=
  ⟨implEnvOk, "None", llmTestEnvOk, gtEnvWith ae, okProc⟩

/-- A run environment with a YAML path and correlation model present, a
resolvable class name, and the given action-map oracles, build outcome and
retention inputs. -/
def runEnvWith (ae : ActionMapEnv) (build : CmdOutcome)
    (target retain copyOk : Bool) : RunEnv :=
  ⟨.ok "Calc" "", setupEnvWith ae, true, true, target, retain, build,
    .ran "" "", .ran "" "", true, false, copyOk⟩

/-- Action-map oracles whose implementation map "2(1, 1)" disagrees with the
ground truth "1(2)". -/
def amEnvMismatch : ActionMapEnv := ⟨.ok "2(1, 1)" "", .ok [2], okProc, none⟩

/-- Action-map oracles for one action with two parameters whose correlation
reply is a string that does not match the mapping grammar. -/
def amEnvMalformedReply : ActionMapEnv :=
  ⟨.ok "1(2)" "", .ok [2], .ok "rpt" "", some "this is not a mapping"⟩

/-- Action-map oracles for one action with two parameters whose correlation
reply is absent (non-string content or a raised invocation error). -/
def amEnvNoReply : ActionMapEnv := ⟨.ok "1(2)" "", .ok [2], .ok "rpt" "", none⟩

/-- A matching single-action single-parameter action-map environment. -/
def amEnvSimple : ActionMapEnv := ⟨.ok "1(1)" "", .ok [1], okProc, none⟩

/-- Run environment of the C1 closed instance: matching oracles except that
the action maps disagree. -/
def envC1 : RunEnv := runEnvWith amEnvMismatch (.ran "" "") false false true

/-- Run environment of the C2 closed instance: action maps match with two
parameters, the correlation reply is a malformed string, and the build
tool reports success. -/
def envC2 : RunEnv :=
  runEnvWith amEnvMalformedReply (.ran "Build succeeded" "") false false true

/-- Run environment of the C7 counterexample: the action maps disagree while
a target directory is given and failure retention is requested. -/
def envC7 : RunEnv := runEnvWith amEnvMismatch (.ran "" "") true true true

/-- Run environment of the C7 closed instance: a failing build with a target
directory, failure retention, and a failing retention copy. -/
def envC7w : RunEnv := runEnvWith amEnvSimple (.ran "boom" "") true true false

/-- Run environment of the C8 closed instance: a YAML path is supplied but
no correlation model. -/
def envC8 : RunEnv :=
  { runEnvWith amEnvSimple (.ran "" "") false false true with llmPresent := false }

/-- Run environment of the C9 closed instance: matching single-action maps
and a failing build. -/
def envC9 : RunEnv := runEnvWith amEnvSimple (.ran "boom" "") false false true

/-- The report produced by `envC9`: default-shaped failed build metrics, no
tests, and no action-map info. -/
def rC9 : ValidationMetrics :=
  ⟨⟨[], [], false, 0, "boom\n"⟩, none, none, "G\n", none, none⟩

end CCAG

open CCAG

namespace CCAGLemmas

theorem collectMarked_eq_dedupFirstAux (pat : String) (lines : List String) :
    ∀ seen, collectMarked pat lines seen =
      dedupFirstAux (lines.filter (fun l => strContains l pat)) seen := by
  induction lines with
  | nil => intro seen; rfl
  | cons l ls ih =>
    intro seen
    by_cases h : strContains l pat
    · by_cases hm : l ∈ seen <;>
        simp [collectMarked, dedupFirstAux, List.filter_cons, h, hm, ih]
    · simp [collectMarked, List.filter_cons, h, ih]

theorem mem_dedupFirstAux (x : String) (l : List String) :
    ∀ seen, x ∈ dedupFirstAux l seen ↔ x ∈ l ∧ x ∉ seen := by
  induction l with
  | nil => intro seen; simp [dedupFirstAux]
  | cons y ys ih =>
    intro seen
    by_cases hm : y ∈ seen
    · rw [dedupFirstAux, if_pos hm, ih]
      constructor
      · rintro ⟨hx, hs⟩
        exact ⟨List.mem_cons_of_mem _ hx, hs⟩
      · rintro ⟨hx, hs⟩
        rcases List.mem_cons.mp hx with rfl | hx2
        · exact absurd hm hs
        · exact ⟨hx2, hs⟩
    · rw [dedupFirstAux, if_neg hm]
      simp only [List.mem_cons, ih]
      constructor
      · rintro (rfl | ⟨hx, hs⟩)
        · exact ⟨Or.inl rfl, hm⟩
        · exact ⟨Or.inr hx, fun hc => hs (Or.inr hc)⟩
      · rintro ⟨rfl | hx, hs⟩
        · exact Or.inl rfl
        · by_cases hxy : x = y
          · exact Or.inl hxy
          · exact Or.inr ⟨hx, fun hc => hc.elim hxy hs⟩

theorem dedupFirstAux_nodup (l : List String) :
    ∀ seen, (dedupFirstAux l seen).Nodup := by
  induction l with
  | nil => intro seen; simp [dedupFirstAux]
  | cons y ys ih =>
    intro seen
    by_cases hm : y ∈ seen
    · simpa [dedupFirstAux, if_pos hm] using ih seen
    · rw [dedupFirstAux, if_neg hm, List.nodup_cons]
      refine ⟨fun hy => ?_, ih (y :: seen)⟩
      exact ((mem_dedupFirstAux y ys (y :: seen)).mp hy).2 (List.mem_cons_self y seen)

theorem dedupFirstAux_sublist (l : List String) :
    ∀ seen, List.Sublist (dedupFirstAux l seen) l := by
  induction l with
  | nil => intro seen; simp [dedupFirstAux]
  | cons y ys ih =>
    intro seen
    by_cases hm : y ∈ seen
    · simpa [dedupFirstAux, if_pos hm] using List.Sublist.cons y (ih seen)
    · simpa [dedupFirstAux, if_neg hm] using List.Sublist.cons₂ y (ih (y :: seen))

theorem dedupFirst_toFinset (l : List String) : (dedupFirst l).toFinset = l.toFinset := by
  ext x
  simp [dedupFirst, List.mem_toFinset, mem_dedupFirstAux]

theorem dedupFirst_length (l : List String) :
    (dedupFirst l).length = l.toFinset.card := by
  have h1 : (dedupFirst l).Nodup := dedupFirstAux_nodup l []
  calc (dedupFirst l).length = (dedupFirst l).toFinset.card :=
        (List.toFinset_card_of_nodup h1).symm
    _ = l.toFinset.card := by rw [dedupFirst_toFinset]

theorem collectMarked_nonempty_of_mem (pat : String) (lines : List String)
    (l : String) (hl : l ∈ lines) (hmark : strContains l pat = true) :
    collectMarked pat lines [] ≠ [] := by
  rw [collectMarked_eq_dedupFirstAux]
  intro hemp
  have : l ∈ dedupFirstAux (lines.filter (fun x => strContains x pat)) [] := by
    rw [mem_dedupFirstAux]
    exact ⟨List.mem_filter.mpr ⟨hl, hmark⟩, by simp⟩
  simp [hemp] at this

end CCAGLemmas

/-- C3: for every build-output text, the parsed success flag is true exactly
when the text contains the substring "Build succeeded" and the parsed error
list is empty; in particular success is false whenever some line of the text
contains ": error ", even if the success marker is present. -/
theorem C3_build_success_conjunction (s : String) :
    ((parse_build_output s).success = true ↔
      (strContains s "Build succeeded" = true ∧ (parse_build_output s).errors = []))
    ∧ ((∃ l, l ∈ splitlines s ∧ strContains l ": error " = true) →
      (parse_build_output s).success = false) := by
  constructor
  · simp [parse_build_output, List.isEmpty_iff]
  · rintro ⟨l, hl, hmark⟩
    have hne := CCAGLemmas.collectMarked_nonempty_of_mem ": error " (splitlines s) l hl hmark
    simp only [parse_build_output, Bool.and_eq_false_iff]
    right
    simpa [List.isEmpty_iff] using hne

/-- Closed instance of C3: a build output with an error-marked line and the
success marker still parses as a failed build. -/
theorem C3_witness :
    (parse_build_output "a.cs(1,1): error CS1: x\nBuild succeeded").success = false :=
  (C3_build_success_conjunction "a.cs(1,1): error CS1: x\nBuild succeeded").2
    ⟨"a.cs(1,1): error CS1: x", by decide, by decide⟩

/-- C5: the build parser returns exactly the distinct ": warning "-marked and
": error "-marked lines, de-duplicated by exact line text, in first-occurrence
order (each list is a duplicate-free sublist of the marked lines of the input,
equal to their first-occurrence de-duplication, with one entry per distinct
marked line). -/
theorem C5_build_parser_dedup (s : String) :
    ((parse_build_output s).warnings =
        dedupFirst ((splitlines s).filter (fun l => strContains l ": warning ")) ∧
      (parse_build_output s).warnings.Nodup ∧
      List.Sublist (parse_build_output s).warnings
        ((splitlines s).filter (fun l => strContains l ": warning ")) ∧
      (parse_build_output s).warnings.length =
        ((splitlines s).filter (fun l => strContains l ": warning ")).toFinset.card)
    ∧ ((parse_build_output s).errors =
        dedupFirst ((splitlines s).filter (fun l => strContains l ": error ")) ∧
      (parse_build_output s).errors.Nodup ∧
      List.Sublist (parse_build_output s).errors
        ((splitlines s).filter (fun l => strContains l ": error ")) ∧
      (parse_build_output s).errors.length =
        ((splitlines s).filter (fun l => strContains l ": error ")).toFinset.card) := by
  have hw : (parse_build_output s).warnings =
      dedupFirst ((splitlines s).filter (fun l => strContains l ": warning ")) := by
    simp [parse_build_output, dedupFirst, CCAGLemmas.collectMarked_eq_dedupFirstAux]
  have he : (parse_build_output s).errors =
      dedupFirst ((splitlines s).filter (fun l => strContains l ": error ")) := by
    simp [parse_build_output, dedupFirst, CCAGLemmas.collectMarked_eq_dedupFirstAux]
  refine ⟨⟨hw, ?_, ?_, ?_⟩, ⟨he, ?_, ?_, ?_⟩⟩
  · rw [hw]; exact CCAGLemmas.dedupFirstAux_nodup _ []
  · rw [hw]; exact CCAGLemmas.dedupFirstAux_sublist _ []
  · rw [hw]; exact CCAGLemmas.dedupFirst_length _
  · rw [he]; exact CCAGLemmas.dedupFirstAux_nodup _ []
  · rw [he]; exact CCAGLemmas.dedupFirstAux_sublist _ []
  · rw [he]; exact CCAGLemmas.dedupFirst_length _

/-- C10: optional-package entries that are empty after trimming or whose
lower-cased text is "none" or "moq" never receive an install command, and an
empty or case-insensitively "none" package list leads to no optional install
at all. -/
theorem C10_optional_package_filtering (s : String) :
    (∀ e ∈ (splitOnChar ',' s).map pyStrip,
      (e = "" ∨ pyLower e = "none" ∨ pyLower e = "moq") →
        e ∉ optionalPackagesToInstall s)
    ∧ ((s = "" ∨ pyLower s = "none") → optionalPackagesToInstall s = []) := by
  constructor
  · intro e _he hbad hmem
    unfold optionalPackagesToInstall at hmem
    by_cases hc : (s != "" && pyLower s != "none") = true
    · rw [if_pos hc] at hmem
      have hpred := (List.mem_filter.mp hmem).2
      rcases hbad with h | h | h <;> simp [h] at hpred
    · rw [if_neg hc] at hmem
      simp at hmem
  · intro h
    unfold optionalPackagesToInstall
    rcases h with h | h <;> simp [h]

/-- Closed instance of C10: a concrete list whose "Moq", blank and "none"
entries are all dropped, and a bare "None" list installing nothing. -/
theorem C10_witness :
    "Moq" ∉ optionalPackagesToInstall "Newtonsoft.Json, Moq, ,none" ∧
    optionalPackagesToInstall "None" = [] :=
  ⟨(C10_optional_package_filtering "Newtonsoft.Json, Moq, ,none").1 "Moq"
      (by decide) (by decide),
    (C10_optional_package_filtering "None").2 (by decide)⟩

namespace CCAGLemmas

theorem procLine_no_summary (st : TestState) (l : String)
    (h1 : strContains (pyStrip l) "Failed!  -" = false)
    (h2 : strContains (pyStrip l) "Passed!  -" = false) :
    procLine st l =
      (if strContains (pyStrip l) "[FAIL]" = true
        then { st with error_details := st.error_details ++ [pyStrip l] }
        else st, false) := by
  simp [procLine, h1, h2]

theorem parseTestLoop_no_summary (lines : List String) :
    ∀ st : TestState,
      (∀ l ∈ lines,
        strContains (pyStrip l) "Failed!  -" = false ∧
        strContains (pyStrip l) "Passed!  -" = false) →
      (parseTestLoop lines st).passed = st.passed ∧
      (parseTestLoop lines st).failed = st.failed ∧
      (parseTestLoop lines st).skipped = st.skipped ∧
      (parseTestLoop lines st).duration_ms = st.duration_ms := by
  induction lines with
  | nil => intro st _; exact ⟨rfl, rfl, rfl, rfl⟩
  | cons l ls ih =>
    intro st h
    have hl := h l (List.mem_cons_self l ls)
    have hrest := fun x hx => h x (List.mem_cons_of_mem l hx)
    have hstep : parseTestLoop (l :: ls) st =
        parseTestLoop ls (if strContains (pyStrip l) "[FAIL]" = true
          then { st with error_details := st.error_details ++ [pyStrip l] }
          else st) := by
      rw [parseTestLoop, procLine_no_summary st l hl.1 hl.2]
    rw [hstep]
    by_cases hf : strContains (pyStrip l) "[FAIL]" = true
    · rw [if_pos hf]
      exact ih _ hrest
    · rw [if_neg hf]
      exact ih st hrest

end CCAGLemmas

/-- C6: the test parser reads Passed/Failed/Skipped/Duration from a
`Passed!  -`/`Failed!  -` summary line (the given sample parses to
passed 4, failed 1, skipped 0, duration 820 ms), and every input without
such a summary line yields all-zero counts — the parser is a total function
that never raises. -/
theorem C6_test_parser_summary (s : String) :
    (parse_test_output "Passed!  - Failed: 1, Passed: 4, Skipped: 0, Duration: 820 ms" =
      { passed := 4, failed := 1, skipped := 0, duration_ms := 820,
        error_details := none,
        raw_output := "Passed!  - Failed: 1, Passed: 4, Skipped: 0, Duration: 820 ms" })
    ∧ ((∀ l ∈ splitlines s,
        strContains (pyStrip l) "Failed!  -" = false ∧
        strContains (pyStrip l) "Passed!  -" = false) →
      (parse_test_output s).passed = 0 ∧ (parse_test_output s).failed = 0 ∧
        (parse_test_output s).skipped = 0 ∧ (parse_test_output s).duration_ms = 0) := by
  constructor
  · decide
  · intro h
    have hzero := CCAGLemmas.parseTestLoop_no_summary (splitlines s) ⟨0, 0, 0, 0, []⟩ h
    simpa [parse_test_output] using hzero

/-- Closed instance of C6: a two-line output without a summary line parses
to all-zero counts. -/
theorem C6_witness :
    (parse_test_output "Determining projects to restore...\nAll projects are up-to-date").passed = 0 ∧
    (parse_test_output "Determining projects to restore...\nAll projects are up-to-date").failed = 0 ∧
    (parse_test_output "Determining projects to restore...\nAll projects are up-to-date").skipped = 0 ∧
    (parse_test_output "Determining projects to restore...\nAll projects are up-to-date").duration_ms = 0 :=
  (C6_test_parser_summary "Determining projects to restore...\nAll projects are up-to-date").2
    (by decide)

/-- C4 counterexample: a failing LLM-test project scaffold command raises the
fatal setup error immediately — one attempt, no backoff, no retry —
contradicting the claim that every transient project-scaffolding failure
(including the LLM-test project) is retried once after a backoff. -/
theorem C4_counterexample_no_llm_test_retry :
    create_llm_test_project
      ⟨.err "" "scaffold failed" "CalledProcessError", .ok "" "", .ok "" "",
        .ok "" "", .ok "" "", .ok "" "", none⟩ =
      (Except.error (.projectSetup "Failed to setup LLM test project" "scaffold failed"),
        ⟨1, []⟩) := rfl

/-- C4 (amended): only the implementation-project scaffold is retried — a
first failure is followed by a 2-second backoff and exactly one further
attempt, and only a second failure raises the typed setup error; a scaffold
failure in the LLM-test or ground-truth-test project raises the typed setup
error immediately, with a single attempt and no backoff. -/
theorem C4_scaffold_retry_only_impl (ie : ImplEnv) (le : LlmTestEnv)
    (ge : GtEnv) (lp : Bool) :
    ((∃ o s m, ie.scaffold1 = .err o s m) →
      (create_implementation_project ie).2 = ⟨2, [2]⟩)
    ∧ ((∃ o s, ie.scaffold1 = .ok o s) →
      (create_implementation_project ie).2 = ⟨1, []⟩)
    ∧ (∀ o1 s1 m1 o2 s2 m2, ie.scaffold1 = .err o1 s1 m1 →
        ie.scaffold2 = .err o2 s2 m2 →
      (create_implementation_project ie).1 =
        Except.error (.projectSetup "Failed to create implementation project" s2))
    ∧ (∀ o s m, le.scaffold = .err o s m →
      create_llm_test_project le =
        (Except.error (.projectSetup "Failed to setup LLM test project" s), ⟨1, []⟩))
    ∧ (∀ o s m, ge.scaffold = .err o s m →
      create_ground_truth_tests lp ge =
        (Except.error (.projectSetup "Failed to setup ground truth tests" s),
          ⟨1, [], 0⟩)) := by
  refine ⟨?_, ?_, ?_, ?_, ?_⟩
  · rintro ⟨o, s, m, h1⟩
    cases h2 : ie.scaffold2 with
    | err o2 s2 m2 => simp [create_implementation_project, h1, h2]
    | ok o2 s2 =>
      simp only [create_implementation_project, h1, h2]
      cases hw : ie.writeError with
      | some msg => rfl
      | none =>
        cases hf : firstPkgFailure
            [("OutSystems.ExternalLibraries.SDK", ie.sdkPkg),
             ("CustomCode.Analyzer", ie.analyzerPkg)] with
        | none => rfl
        | some ps => cases ps; rfl
  · rintro ⟨o, s, h1⟩
    simp only [create_implementation_project, h1]
    cases hw : ie.writeError with
    | none =>
      cases hf : firstPkgFailure
          [("OutSystems.ExternalLibraries.SDK", ie.sdkPkg),
           ("CustomCode.Analyzer", ie.analyzerPkg)] with
      | none => rfl
      | some ps => cases ps; rfl
    | some m => rfl
  · intro o1 s1 m1 o2 s2 m2 h1 h2
    simp [create_implementation_project, h1, h2]
  · intro o s m h
    simp [create_llm_test_project, h]
  · intro o s m h
    simp [create_ground_truth_tests, h]

/-- Closed instance of the amended C4: a first implementation-scaffold
failure is retried (two attempts, one 2-second sleep), while LLM-test and
ground-truth failures fail at once with a single attempt. -/
theorem C4_witness :
    (create_implementation_project
      ⟨.err "" "e1" "m1", .ok "" "", none, .ok "" "", .ok "" ""⟩).2 = ⟨2, [2]⟩ ∧
    create_ground_truth_tests true
      ⟨.err "" "gt boom" "m", .ok "" "", .ok "" "", .ok "" "", .ok "" "",
        ⟨.ok "1(1)" "", .ok [1], .ok "" "", none⟩, .ok "" ""⟩ =
      (Except.error (.projectSetup "Failed to setup ground truth tests" "gt boom"),
        ⟨1, [], 0⟩) :=
  ⟨(C4_scaffold_retry_only_impl
      ⟨.err "" "e1" "m1", .ok "" "", none, .ok "" "", .ok "" ""⟩
      ⟨.ok "" "", .ok "" "", .ok "" "", .ok "" "", .ok "" "", .ok "" "", none⟩
      ⟨.err "" "gt boom" "m", .ok "" "", .ok "" "", .ok "" "", .ok "" "",
        ⟨.ok "1(1)" "", .ok [1], .ok "" "", none⟩, .ok "" ""⟩ true).1
      ⟨"", "e1", "m1", rfl⟩,
    (C4_scaffold_retry_only_impl
      ⟨.err "" "e1" "m1", .ok "" "", none, .ok "" "", .ok "" ""⟩
      ⟨.ok "" "", .ok "" "", .ok "" "", .ok "" "", .ok "" "", .ok "" "", none⟩
      ⟨.err "" "gt boom" "m", .ok "" "", .ok "" "", .ok "" "", .ok "" "",
        ⟨.ok "1(1)" "", .ok [1], .ok "" "", none⟩, .ok "" ""⟩ true).2.2.2.2
      "" "gt boom" "m" rfl⟩

namespace CCAGLemmas

theorem gt_fails_without_llm (ge : GtEnv) :
    ∃ e, (create_ground_truth_tests false ge).1 = Except.error e := by
  unfold create_ground_truth_tests
  cases hs : ge.scaffold with
  | err o s m => exact ⟨_, rfl⟩
  | ok o s =>
    cases hf : firstPkgFailure
        [("xunit", ge.xunitPkg), ("xunit.runner.visualstudio", ge.runnerPkg),
         ("Microsoft.NET.Test.Sdk", ge.testSdkPkg)] with
    | some ps =>
      cases ps
      exact ⟨_, rfl⟩
    | none =>
      cases ha : ge.addRef with
      | err o2 s2 m2 => exact ⟨_, rfl⟩
      | ok o2 s2 => exact ⟨_, rfl⟩

theorem gt_ok_results (ge : GtEnv) (lp : Bool) (odc : String)
    (info : Option ActionMapInfo) (tr : GtTrace)
    (h : create_ground_truth_tests lp ge = (Except.ok (odc, info), tr)) :
    lp = true ∧ info = (validate_action_map true ge.amEnv).1.action_map_info := by
  cases lp with
  | false =>
    obtain ⟨e, he⟩ := gt_fails_without_llm ge
    rw [h] at he
    simp at he
  | true =>
    refine ⟨rfl, ?_⟩
    unfold create_ground_truth_tests at h
    cases hs : ge.scaffold with
    | err o s m => rw [hs] at h; simp at h
    | ok o s =>
      rw [hs] at h
      cases hf : firstPkgFailure
          [("xunit", ge.xunitPkg), ("xunit.runner.visualstudio", ge.runnerPkg),
           ("Microsoft.NET.Test.Sdk", ge.testSdkPkg)] with
      | some ps => cases ps; rw [hf] at h; simp at h
      | none =>
        rw [hf] at h
        cases ha : ge.addRef with
        | err o2 s2 m2 => rw [ha] at h; simp at h
        | ok o2 s2 =>
          rw [ha] at h
          simp only [Bool.not_true, Bool.false_eq_true, if_false] at h
          by_cases hc :
              (validate_action_map true ge.amEnv).1.should_continue = true
          · simp only [hc, Bool.not_true, Bool.false_eq_true, if_false] at h
            cases hg : ge.genProc with
            | ok o3 s3 => rw [hg] at h; simp at h; exact h.1.2.symm
            | err o3 s3 m3 => rw [hg] at h; simp at h; exact h.1.2.symm
          · simp only [Bool.not_eq_true] at hc
            simp only [hc, Bool.not_false, if_true] at h
            simp at h
            exact h.1.2.symm

theorem setup_fails_without_llm (se : SetupEnv) :
    ∃ e, (create_and_setup_projects true false se).1 = Except.error e := by
  unfold create_and_setup_projects
  rcases h1 : create_implementation_project se.implEnv with ⟨r1, itr⟩
  cases r1 with
  | error e => exact ⟨e, rfl⟩
  | ok u =>
    rcases h2 : create_llm_test_project se.llmTestEnv with ⟨r2, ltr⟩
    cases r2 with
    | error e => exact ⟨e, rfl⟩
    | ok u2 =>
      simp only [if_pos rfl]
      obtain ⟨e, he⟩ := gt_fails_without_llm se.gtEnv
      rcases h3 : create_ground_truth_tests false se.gtEnv with ⟨r3, gtr⟩
      rw [h3] at he
      cases r3 with
      | error e3 => exact ⟨e3, rfl⟩
      | ok p => simp at he

theorem setup_ok_results (yg lp : Bool) (se : SetupEnv) (logs : String)
    (info : Option ActionMapInfo) (st : SetupTrace)
    (h : create_and_setup_projects yg lp se = (Except.ok (logs, info), st)) :
    (yg = true → lp = true ∧
      info = (validate_action_map true se.gtEnv.amEnv).1.action_map_info) ∧
    (yg = false → info = none) := by
  unfold create_and_setup_projects at h
  rcases h1 : create_implementation_project se.implEnv with ⟨r1, itr⟩
  rw [h1] at h
  cases r1 with
  | error e => simp at h
  | ok u =>
    rcases h2 : create_llm_test_project se.llmTestEnv with ⟨r2, ltr⟩
    rw [h2] at h
    cases r2 with
    | error e => simp at h
    | ok u2 =>
      cases yg with
      | false =>
        refine ⟨fun hcontra => Bool.noConfusion hcontra, fun _ => ?_⟩
        simp only [Bool.false_eq_true, if_false] at h
        cases h4 : se.slnProc with
        | err o s m => rw [h4] at h; simp at h
        | ok o s => rw [h4] at h; simp at h; exact h.1.2.symm
      | true =>
        refine ⟨fun _ => ?_, fun hcontra => Bool.noConfusion hcontra⟩
        simp only [if_pos rfl] at h
        rcases h3 : create_ground_truth_tests lp se.gtEnv with ⟨r3, gtr⟩
        rw [h3] at h
        cases r3 with
        | error e3 => simp at h
        | ok p =>
          rcases p with ⟨odc0, info0⟩
          cases h4 : se.slnProc with
          | err o s m => rw [h4] at h; simp at h
          | ok o s =>
            rw [h4] at h
            simp at h
            obtain ⟨hlp, hinfo⟩ := gt_ok_results se.gtEnv lp odc0 info0 gtr h3
            exact ⟨hlp, h.1.2 ▸ hinfo⟩

theorem run_class_error (env : RunEnv) (e : PyExc)
    (hc : extract_class_name env.classProc = Except.error e) :
    ∃ odc, validate_generated_code env =
      (Except.ok (earlyReport odc none), preBuildTrace zeroSetupTrace) := by
  unfold validate_generated_code
  rw [hc]
  cases e <;> exact ⟨_, rfl⟩

theorem run_setup_error (env : RunEnv) (cn : String) (e : PyExc) (st : SetupTrace)
    (hc : extract_class_name env.classProc = Except.ok cn)
    (hs : create_and_setup_projects env.yamlGiven env.llmPresent env.setupEnv =
      (Except.error e, st)) :
    ∃ odc, validate_generated_code env =
      (Except.ok (earlyReport odc none), preBuildTrace st) := by
  unfold validate_generated_code
  rw [hc, hs]
  cases e <;> exact ⟨_, rfl⟩

theorem run_setup_ok (env : RunEnv) (cn : String) (logs : String)
    (info : Option ActionMapInfo) (st : SetupTrace)
    (hc : extract_class_name env.classProc = Except.ok cn)
    (hs : create_and_setup_projects env.yamlGiven env.llmPresent env.setupEnv =
      (Except.ok (logs, info), st)) :
    validate_generated_code env =
      (match skipDecision env.yamlGiven info with
       | .error e => (.error e, preBuildTrace st)
       | .ok true => (.ok (earlyReport logs info), preBuildTrace st)
       | .ok false => buildPhase env logs info st) := by
  unfold validate_generated_code
  rw [hc, hs]

end CCAGLemmas

namespace CCAGLemmas

theorem buildPhase_spec (env : RunEnv) (logs : String)
    (info : Option ActionMapInfo) (st : SetupTrace) :
    ∃ r : ValidationMetrics,
      (buildPhase env logs info st).1 = Except.ok r ∧
      r.build_metrics = (build_solution env.buildOutcome).1 ∧
      (buildPhase env logs info st).2.buildRan = true ∧
      (r.build_metrics.success = false →
        r.action_map_info = none ∧ r.llm_test_results = none ∧
        r.ground_truth_test_results = none) ∧
      ((buildPhase env logs info st).2.copySpec.isSome = true ↔
        (env.targetGiven = true ∧
          (r.build_metrics.success = true ∨ env.retainOnFailure = true))) ∧
      ((buildPhase env logs info st).2.copySpec.isSome = true →
        (buildPhase env logs info st).2.copySpec =
          some ⟨["bin", "obj"], env.targetExists⟩) ∧
      (env.copyOk = false → env.targetGiven = true →
        (r.build_metrics.success = true ∨ env.retainOnFailure = true) →
        r.solution_dir = some Loc.ephemeral) := by
  simp only [buildPhase]
  cases hbs : (build_solution env.buildOutcome).1.success <;>
    cases ht : env.targetGiven <;>
    cases hre : env.retainOnFailure <;>
    cases hco : env.copyOk <;>
    simp [hbs, ht, hre, hco]

end CCAGLemmas

namespace CCAGLemmas

theorem run_buildRan (env : RunEnv)
    (hb : (validate_generated_code env).2.buildRan = true) :
    ∃ cn logs info st,
      extract_class_name env.classProc = Except.ok cn ∧
      create_and_setup_projects env.yamlGiven env.llmPresent env.setupEnv =
        (Except.ok (logs, info), st) ∧
      skipDecision env.yamlGiven info = Except.ok false ∧
      validate_generated_code env = buildPhase env logs info st := by
  cases hc : extract_class_name env.classProc with
  | error e =>
    obtain ⟨odc, hrun⟩ := run_class_error env e hc
    rw [hrun] at hb
    cases hb
  | ok cn =>
    rcases hs : create_and_setup_projects env.yamlGiven env.llmPresent
        env.setupEnv with ⟨res, st⟩
    cases res with
    | error e =>
      obtain ⟨odc, hrun⟩ := run_setup_error env cn e st hc hs
      rw [hrun] at hb
      cases hb
    | ok p =>
      rcases p with ⟨logs, info⟩
      have hrun := run_setup_ok env cn logs info st hc hs
      cases hsd : skipDecision env.yamlGiven info with
      | error e =>
        rw [hsd] at hrun
        rw [hrun] at hb
        cases hb
      | ok b =>
        cases b with
        | true =>
          rw [hsd] at hrun
          rw [hrun] at hb
          cases hb
        | false =>
          rw [hsd] at hrun
          exact ⟨cn, logs, info, st, rfl, rfl, hsd, hrun⟩

end CCAGLemmas

/-- C1: whenever the action-map comparison computed for the run's oracles has
matches = false, or its implementation summary's leading integer exceeds one,
and a YAML path was given, the run's report keeps the default unattempted
BuildMetrics and both test-result fields absent, and the build and test
stages are never invoked. -/
theorem C1_action_map_gate (env : RunEnv) (i : ActionMapInfo)
    (hy : env.yamlGiven = true)
    (hi : (validate_action_map true env.setupEnv.gtEnv.amEnv).1.action_map_info =
      some i)
    (hbad : i.«matches» = false ∨
      (∃ n : Int, pyInt (pySplitParenHead i.implementation) = some n ∧ n > 1)) :
    (∃ r, (validate_generated_code env).1 = Except.ok r ∧
      r.build_metrics = defaultBuildMetrics ∧
      r.llm_test_results = none ∧ r.ground_truth_test_results = none) ∧
    (validate_generated_code env).2.buildRan = false ∧
    (validate_generated_code env).2.llmTestsRan = false ∧
    (validate_generated_code env).2.gtTestsRan = false := by
  cases hc : extract_class_name env.classProc with
  | error e =>
    obtain ⟨odc, hrun⟩ := CCAGLemmas.run_class_error env e hc
    rw [hrun]
    exact ⟨⟨_, rfl, rfl, rfl, rfl⟩, rfl, rfl, rfl⟩
  | ok cn =>
    rcases hs : create_and_setup_projects env.yamlGiven env.llmPresent
        env.setupEnv with ⟨res, st⟩
    cases res with
    | error e =>
      obtain ⟨odc, hrun⟩ := CCAGLemmas.run_setup_error env cn e st hc hs
      rw [hrun]
      exact ⟨⟨_, rfl, rfl, rfl, rfl⟩, rfl, rfl, rfl⟩
    | ok p =>
      rcases p with ⟨logs, info⟩
      have hinfo : info = some i := by
        have := (CCAGLemmas.setup_ok_results env.yamlGiven env.llmPresent
          env.setupEnv logs info st hs).1 hy
        rw [this.2, hi]
      have hrun := CCAGLemmas.run_setup_ok env cn logs info st hc hs
      have hsd : skipDecision env.yamlGiven info = Except.ok true := by
        rw [hy, hinfo]
        by_cases hm : i.«matches» = true
        · rcases hbad with hb1 | ⟨n, hn, hgt⟩
          · rw [hb1] at hm; cases hm
          · simp [skipDecision, hm, hn, hgt]
        · have hm2 : i.«matches» = false := by
            cases hmm : i.«matches»
            · rfl
            · exact absurd hmm hm
          simp [skipDecision, hm2]
      rw [hsd] at hrun
      rw [hrun]
      exact ⟨⟨_, rfl, rfl, rfl, rfl⟩, rfl, rfl, rfl⟩

/-- Closed instance of C1: mismatching maps "2(1, 1)" versus "1(2)" yield the
default unattempted report and skip build and tests. -/
theorem C1_witness :
    (∃ r, (validate_generated_code envC1).1 = Except.ok r ∧
      r.build_metrics = defaultBuildMetrics ∧
      r.llm_test_results = none ∧ r.ground_truth_test_results = none) ∧
    (validate_generated_code envC1).2.buildRan = false ∧
    (validate_generated_code envC1).2.llmTestsRan = false ∧
    (validate_generated_code envC1).2.gtTestsRan = false :=
  C1_action_map_gate envC1 ⟨"2(1, 1)", "1(2)", false⟩ rfl rfl (Or.inl rfl)

/-- C9: whenever the build stage runs and fails, the run's report carries no
action-map info, even when action-map validation ran and reported a match. -/
theorem C9_failed_build_no_action_map (env : RunEnv) (r : ValidationMetrics)
    (hr : (validate_generated_code env).1 = Except.ok r)
    (hb : (validate_generated_code env).2.buildRan = true)
    (hf : r.build_metrics.success = false) :
    r.action_map_info = none := by
  obtain ⟨cn, logs, info, st, hc, hs, hsd, hrun⟩ :=
    CCAGLemmas.run_buildRan env hb
  obtain ⟨r0, h1, h2, _h3, h4, _⟩ :=
    CCAGLemmas.buildPhase_spec env logs info st
  rw [hrun] at hr
  rw [h1] at hr
  have hrr : r0 = r := by exact Except.ok.inj hr
  subst hrr
  exact (h4 hf).1

/-- Closed instance of C9: matching maps, a failed build, and a report whose
action_map_info is nevertheless None. -/
theorem C9_witness :
    (validate_generated_code envC9).1 = Except.ok rC9 ∧
    rC9.action_map_info = none :=
  ⟨rfl, C9_failed_build_no_action_map envC9 rC9 rfl rfl rfl⟩

/-- C8: a run given a ground-truth YAML path but no correlation model never
reaches the build stage and never raises to the caller: it returns a
terminal report with default unattempted BuildMetrics and no test results.
When the ground-truth project scaffolding succeeds, the underlying exception
is the UnboundLocalError of reading the never-assigned `result` local, which
the orchestrator's catch-all converts into that report. -/
theorem C8_yaml_without_llm_terminal (env : RunEnv)
    (hy : env.yamlGiven = true) (hl : env.llmPresent = false) :
    (∃ r, (validate_generated_code env).1 = Except.ok r ∧
      r.build_metrics = defaultBuildMetrics ∧
      r.llm_test_results = none ∧ r.ground_truth_test_results = none) ∧
    (validate_generated_code env).2.buildRan = false ∧
    (gtScaffoldOk env.setupEnv.gtEnv = true →
      (create_ground_truth_tests env.llmPresent env.setupEnv.gtEnv).1 =
        Except.error (.unboundLocal unboundResultMsg)) := by
  have hmech : gtScaffoldOk env.setupEnv.gtEnv = true →
      (create_ground_truth_tests env.llmPresent env.setupEnv.gtEnv).1 =
        Except.error (.unboundLocal unboundResultMsg) := by
    intro hok
    rw [hl]
    cases h1 : env.setupEnv.gtEnv.scaffold with
    | err o s m => simp [gtScaffoldOk, ProcResult.isOk, h1] at hok
    | ok o s =>
      cases h2 : env.setupEnv.gtEnv.xunitPkg with
      | err o2 s2 m2 => simp [gtScaffoldOk, ProcResult.isOk, h2] at hok
      | ok o2 s2 =>
        cases h3 : env.setupEnv.gtEnv.runnerPkg with
        | err o3 s3 m3 => simp [gtScaffoldOk, ProcResult.isOk, h3] at hok
        | ok o3 s3 =>
          cases h4 : env.setupEnv.gtEnv.testSdkPkg with
          | err o4 s4 m4 => simp [gtScaffoldOk, ProcResult.isOk, h4] at hok
          | ok o4 s4 =>
            cases h5 : env.setupEnv.gtEnv.addRef with
            | err o5 s5 m5 => simp [gtScaffoldOk, ProcResult.isOk, h5] at hok
            | ok o5 s5 =>
              simp [create_ground_truth_tests, h1, h2, h3, h4, h5,
                firstPkgFailure]
  refine ⟨?_, ?_, hmech⟩ <;>
  · cases hc : extract_class_name env.classProc with
    | error e =>
      obtain ⟨odc, hrun⟩ := CCAGLemmas.run_class_error env e hc
      rw [hrun]
      first
      | exact ⟨_, rfl, rfl, rfl, rfl⟩
      | rfl
    | ok cn =>
      obtain ⟨e, he⟩ := CCAGLemmas.setup_fails_without_llm env.setupEnv
      rcases hs : create_and_setup_projects env.yamlGiven env.llmPresent
          env.setupEnv with ⟨res, st⟩
      rw [hy, hl] at hs
      rw [hs] at he
      cases res with
      | ok p => simp at he
      | error e2 =>
        have hs2 : create_and_setup_projects env.yamlGiven env.llmPresent
            env.setupEnv = (Except.error e2, st) := by rw [hy, hl]; exact hs
        obtain ⟨odc, hrun⟩ := CCAGLemmas.run_setup_error env cn e2 st hc hs2
        rw [hrun]
        first
        | exact ⟨_, rfl, rfl, rfl, rfl⟩
        | rfl

/-- Closed instance of C8: a YAML path without a correlation model yields the
default unattempted report, never reaches build, and the ground-truth stage's
raised exception is the UnboundLocalError on `result`. -/
theorem C8_witness :
    (∃ r, (validate_generated_code envC8).1 = Except.ok r ∧
      r.build_metrics = defaultBuildMetrics ∧
      r.llm_test_results = none ∧ r.ground_truth_test_results = none) ∧
    (validate_generated_code envC8).2.buildRan = false ∧
    (create_ground_truth_tests envC8.llmPresent envC8.setupEnv.gtEnv).1 =
      Except.error (.unboundLocal unboundResultMsg) :=
  ⟨(C8_yaml_without_llm_terminal envC8 rfl rfl).1,
    (C8_yaml_without_llm_terminal envC8 rfl rfl).2.1,
    (C8_yaml_without_llm_terminal envC8 rfl rfl).2.2 rfl⟩

/-- C7 counterexample: a run that exits on the action-map skip path performs
no retention copy even though a target directory was given and failure
retention was requested (and the build did not succeed) — so "copied iff a
target directory was given and (build succeeded or failure retention was
requested)" fails in the left-to-right direction over whole runs. -/
theorem C7_counterexample_skip_path_never_copies :
    envC7.targetGiven = true ∧ envC7.retainOnFailure = true ∧
    (validate_generated_code envC7).1 =
      Except.ok (earlyReport "" (some ⟨"2(1, 1)", "1(2)", false⟩)) ∧
    (earlyReport "" (some ⟨"2(1, 1)", "1(2)", false⟩)).build_metrics.success
      = false ∧
    (validate_generated_code envC7).2.copySpec = none ∧
    (earlyReport "" (some ⟨"2(1, 1)", "1(2)", false⟩)).solution_dir = none :=
  ⟨rfl, rfl, rfl, rfl, rfl, rfl⟩

/-- C7 (amended): once the build stage has run, the working tree is copied to
the caller's target directory exactly when a target directory was given and
(the build succeeded or failure retention was requested); the copy excludes
the bin and obj build-artifact directories and first removes a pre-existing
directory at the target; and on a copy failure the run still returns
normally with solution_dir left at the original ephemeral path. Runs that
exit before the build stage never copy. -/
theorem C7_retention_after_build (env : RunEnv)
    (hb : (validate_generated_code env).2.buildRan = true) :
    ∃ r, (validate_generated_code env).1 = Except.ok r ∧
      ((validate_generated_code env).2.copySpec.isSome = true ↔
        (env.targetGiven = true ∧
          (r.build_metrics.success = true ∨ env.retainOnFailure = true))) ∧
      ((validate_generated_code env).2.copySpec.isSome = true →
        (validate_generated_code env).2.copySpec =
          some ⟨["bin", "obj"], env.targetExists⟩) ∧
      (env.copyOk = false → env.targetGiven = true →
        (r.build_metrics.success = true ∨ env.retainOnFailure = true) →
        r.solution_dir = some Loc.ephemeral) := by
  obtain ⟨cn, logs, info, st, hc, hs, hsd, hrun⟩ :=
    CCAGLemmas.run_buildRan env hb
  obtain ⟨r0, h1, _h2, _h3, _h4, h5, h6, h7⟩ :=
    CCAGLemmas.buildPhase_spec env logs info st
  rw [hrun]
  exact ⟨r0, h1, h5, h6, h7⟩

/-- Closed instance of the amended C7: a failed build with target directory
and failure retention attempts the copy with bin/obj excluded; the copy
fails, and the run returns normally with the ephemeral solution path. -/
theorem C7_witness :
    ∃ r, (validate_generated_code envC7w).1 = Except.ok r ∧
      ((validate_generated_code envC7w).2.copySpec.isSome = true ↔
        (envC7w.targetGiven = true ∧
          (r.build_metrics.success = true ∨ envC7w.retainOnFailure = true))) ∧
      ((validate_generated_code envC7w).2.copySpec.isSome = true →
        (validate_generated_code envC7w).2.copySpec =
          some ⟨["bin", "obj"], envC7w.targetExists⟩) ∧
      (envC7w.copyOk = false → envC7w.targetGiven = true →
        (r.build_metrics.success = true ∨ envC7w.retainOnFailure = true) →
        r.solution_dir = some Loc.ephemeral) :=
  C7_retention_after_build envC7w rfl

namespace CCAGLemmas

theorem gtMapString_ne_empty (counts : List Nat) : ¬ gtMapString counts = "" := by
  intro h
  have hlen := congrArg String.length h
  simp [gtMapString, String.length_append] at hlen
  exact (by decide : ¬ (String.length ")" = 0)) hlen.2

theorem vam_mapping_path (ae : ActionMapEnv) (mo ms ro rs : String)
    (counts : List Nat) (pc : Int) (rest : List Int)
    (hmap : ae.mapProc = .ok mo ms)
    (hyaml : ae.yamlOutcome = .ok counts)
    (heq : pyStrip mo = gtMapString counts)
    (hrep : ae.reportProc = .ok ro rs)
    (hparse : parse_impl_map (gtMapString counts) = Except.ok (1, pc :: rest))
    (hpc : ¬ pc = 1) :
    validate_action_map true ae =
      (match ae.llmReply with
       | some rep =>
          (⟨true, "", some ⟨gtMapString counts, gtMapString counts, true⟩,
            some (pyStrip rep)⟩, 1)
       | none =>
          (⟨false, "Failed to generate parameter mapping",
            some ⟨gtMapString counts, gtMapString counts, true⟩, none⟩, 1)) := by
  have h11 : ¬ ((1 : Int) > 1) := by decide
  cases hr : ae.llmReply with
  | some rep =>
    simp only [validate_action_map, hmap, heq, hyaml, hparse, hrep, hr,
      get_param_mapping, Bool.not_true, Bool.false_eq_true, if_false,
      beq_self_eq_true]
    rw [if_neg (gtMapString_ne_empty counts)]
    simp [h11, hpc]
  | none =>
    simp only [validate_action_map, hmap, heq, hyaml, hparse, hrep, hr,
      get_param_mapping, Bool.not_true, Bool.false_eq_true, if_false,
      beq_self_eq_true]
    rw [if_neg (gtMapString_ne_empty counts)]
    simp [h11, hpc]

end CCAGLemmas

/-- C2 counterexample: with one action, two parameters and matching maps, a
correlation reply that does not match the mapping grammar is accepted as the
parameter mapping (should_continue stays true) and the run proceeds into the
build stage — it is not treated as a parameter-mapping failure and does not
stop before build. -/
theorem C2_counterexample_malformed_reply_accepted :
    matchesMappingGrammar "this is not a mapping" = false ∧
    (validate_action_map true amEnvMalformedReply).1.should_continue = true ∧
    (validate_action_map true amEnvMalformedReply).1.param_mapping =
      some "this is not a mapping" ∧
    (validate_generated_code envC2).2.buildRan = true :=
  ⟨rfl, rfl, rfl, rfl⟩

/-- C2 (amended): with ground truth declaring one action with a parameter
count other than one and matching maps, exactly one correlation request is
made; any string reply is accepted — stripped, unvalidated against the
grammar — as the parameter mapping with should_continue true; a non-string
or raised reply yields should_continue false with the "Failed to generate
parameter mapping" diagnostic, but this skips only ground-truth test
generation: the ground-truth stage still returns normally, and a run whose
setup reports matching single-action maps always proceeds to the build
stage. -/
theorem C2_correlation_request (ae : ActionMapEnv) (mo ms ro rs : String)
    (counts : List Nat) (pc : Int) (rest : List Int)
    (hmap : ae.mapProc = .ok mo ms)
    (hyaml : ae.yamlOutcome = .ok counts)
    (heq : pyStrip mo = gtMapString counts)
    (hrep : ae.reportProc = .ok ro rs)
    (hparse : parse_impl_map (gtMapString counts) = Except.ok (1, pc :: rest))
    (hpc : ¬ pc = 1) :
    (validate_action_map true ae).2 = 1 ∧
    (∀ rep, ae.llmReply = some rep →
      (validate_action_map true ae).1 =
        ⟨true, "", some ⟨gtMapString counts, gtMapString counts, true⟩,
          some (pyStrip rep)⟩) ∧
    (ae.llmReply = none →
      (validate_action_map true ae).1 =
        ⟨false, "Failed to generate parameter mapping",
          some ⟨gtMapString counts, gtMapString counts, true⟩, none⟩) ∧
    (∀ ge : GtEnv, ge.amEnv = ae → gtScaffoldOk ge = true →
      ae.llmReply = none →
      (create_ground_truth_tests true ge).1 =
        Except.ok ("Failed to generate parameter mapping",
          some ⟨gtMapString counts, gtMapString counts, true⟩)) ∧
    (∀ (env : RunEnv) (cn logs : String) (i : ActionMapInfo) (st : SetupTrace),
      extract_class_name env.classProc = Except.ok cn →
      create_and_setup_projects env.yamlGiven env.llmPresent env.setupEnv =
        (Except.ok (logs, some i), st) →
      i.«matches» = true →
      pyInt (pySplitParenHead i.implementation) = some 1 →
      (validate_generated_code env).2.buildRan = true) := by
  have hvam := CCAGLemmas.vam_mapping_path ae mo ms ro rs counts pc rest
    hmap hyaml heq hrep hparse hpc
  refine ⟨?_, ?_, ?_, ?_, ?_⟩
  · rw [hvam]
    cases ae.llmReply <;> rfl
  · intro rep hr
    rw [hvam, hr]
  · intro hr
    rw [hvam, hr]
  · intro ge hge hok hr
    cases h1 : ge.scaffold with
    | err o s m => simp [gtScaffoldOk, ProcResult.isOk, h1] at hok
    | ok o s =>
      cases h2 : ge.xunitPkg with
      | err o2 s2 m2 => simp [gtScaffoldOk, ProcResult.isOk, h2] at hok
      | ok o2 s2 =>
        cases h3 : ge.runnerPkg with
        | err o3 s3 m3 => simp [gtScaffoldOk, ProcResult.isOk, h3] at hok
        | ok o3 s3 =>
          cases h4 : ge.testSdkPkg with
          | err o4 s4 m4 => simp [gtScaffoldOk, ProcResult.isOk, h4] at hok
          | ok o4 s4 =>
            cases h5 : ge.addRef with
            | err o5 s5 m5 => simp [gtScaffoldOk, ProcResult.isOk, h5] at hok
            | ok o5 s5 =>
              simp only [create_ground_truth_tests, h1, h2, h3, h4, h5,
                firstPkgFailure, hge, hvam, hr, Bool.not_true,
                Bool.false_eq_true, if_false, Bool.not_false, if_true]
  · intro env cn logs i st hc hs hm hn
    have hrun := CCAGLemmas.run_setup_ok env cn logs (some i) st hc hs
    have hsd : skipDecision env.yamlGiven (some i) = Except.ok false := by
      cases hyg : env.yamlGiven <;> simp [skipDecision, hm, hn]
    rw [hsd] at hrun
    rw [hrun]
    rfl

/-- Closed instance of the amended C2: one action with two parameters,
matching maps, an absent reply — one request, the failure-flagged action-map
result, a normally returning ground-truth stage, and (for the malformed-reply
environment) a run that reaches the build stage. -/
theorem C2_witness :
    (validate_action_map true amEnvNoReply).2 = 1 ∧
    (validate_action_map true amEnvNoReply).1 =
      ⟨false, "Failed to generate parameter mapping",
        some ⟨gtMapString [2], gtMapString [2], true⟩, none⟩ ∧
    (create_ground_truth_tests true (gtEnvWith amEnvNoReply)).1 =
      Except.ok ("Failed to generate parameter mapping",
        some ⟨gtMapString [2], gtMapString [2], true⟩) ∧
    (validate_generated_code envC2).2.buildRan = true :=
  have h := C2_correlation_request amEnvNoReply "1(2)" "" "rpt" "" [2] 2 []
    rfl rfl rfl rfl rfl (by decide)
  ⟨h.1, h.2.2.1 rfl, h.2.2.2.1 (gtEnvWith amEnvNoReply) rfl rfl rfl,
    h.2.2.2.2 envC2 "Calc" "G\n" ⟨"1(2)", "1(2)", true⟩
      ⟨⟨1, []⟩, [], ⟨1, []⟩, ⟨1, [], 1⟩⟩ rfl rfl rfl rfl⟩
